import Mathlib

/-!
Verification of the ClassroomRecognizer detection-association, classification
and temporal-aggregation pipeline.

All numeric quantities that are Python floats or ints in the source are
modelled as rationals (`ℚ`); Python `int()` truncation is modelled explicitly
where it matters.  Fallible code paths (Python `raise`) are modelled with
`Except String`.
-/

/-- An axis-aligned bounding box `{x1, y1, x2, y2}`, as used throughout the
backend services (pixel coordinates; a box is valid when `x1 ≤ x2 ∧ y1 ≤ y2`). -/
structure BBox where
  x1 : ℚ
  y1 : ℚ
  x2 : ℚ
  y2 : ℚ
deriving DecidableEq, Repr

/-- A box is valid when its coordinates are ordered. -/
def BBox.valid (b : BBox) : Prop := b.x1 ≤ b.x2 ∧ b.y1 ≤ b.y2

/-- Area of a box, `(x2 - x1) * (y2 - y1)`. -/
def BBox.area (b : BBox) : ℚ := (b.x2 - b.x1) * (b.y2 - b.y1)

/-- Model of `ClassroomBehaviorAnalyzer._calculate_iou` (behavior_service.py lines
375-404), identical to `BBoxTrackerAnalyzer._calculate_iou`
(bbox_tracker_service.py lines 511-532): intersection over union, with an
early 0 for empty intersection and a guard `union > 0` before dividing. -/
def calculateIou (bbox1 bbox2 : BBox) : ℚ :=
  let x1i := max bbox1.x1 bbox2.x1
  let y1i := max bbox1.y1 bbox2.y1
  let x2i := min bbox1.x2 bbox2.x2
  let y2i := min bbox1.y2 bbox2.y2
  if x2i < x1i ∨ y2i < y1i then 0
  else
    let intersection := (x2i - x1i) * (y2i - y1i)
    let union := bbox1.area + bbox2.area - intersection
    if union > 0 then intersection / union else 0

/-- Model of `IndividualBehaviorAnalyzer._calculate_iou` (individual_behavior_service.py
lines 306-323): clamps the intersection side lengths at 0 instead of an early
return, and guards `union == 0`. -/
def calculateIouNp (bbox1 bbox2 : BBox) : ℚ :=
  let x1 := max bbox1.x1 bbox2.x1
  let y1 := max bbox1.y1 bbox2.y1
  let x2 := min bbox1.x2 bbox2.x2
  let y2 := min bbox1.y2 bbox2.y2
  let intersection := max 0 (x2 - x1) * max 0 (y2 - y1)
  let union := bbox1.area + bbox2.area - intersection
  if union = 0 then 0 else intersection / union

/-- Two boxes are (strictly) disjoint: separated along one axis. -/
def BBox.disjoint (a b : BBox) : Prop :=
  a.x2 < b.x1 ∨ b.x2 < a.x1 ∨ a.y2 < b.y1 ∨ b.y2 < a.y1

lemma calculateIou_comm (a b : BBox) : calculateIou a b = calculateIou b a := by
  unfold calculateIou BBox.area
  rw [max_comm a.x1, max_comm a.y1, min_comm a.x2, min_comm a.y2]
  ring_nf

lemma inter_le_area_left (a b : BBox) (_ha : a.valid)
    (h : ¬(min a.x2 b.x2 < max a.x1 b.x1 ∨ min a.y2 b.y2 < max a.y1 b.y1)) :
    (min a.x2 b.x2 - max a.x1 b.x1) * (min a.y2 b.y2 - max a.y1 b.y1) ≤ a.area := by
  push_neg at h
  obtain ⟨hx, hy⟩ := h
  have hx1 : a.x1 ≤ max a.x1 b.x1 := le_max_left _ _
  have hx2 : min a.x2 b.x2 ≤ a.x2 := min_le_left _ _
  have hy1 : a.y1 ≤ max a.y1 b.y1 := le_max_left _ _
  have hy2 : min a.y2 b.y2 ≤ a.y2 := min_le_left _ _
  unfold BBox.area
  have h1 : min a.x2 b.x2 - max a.x1 b.x1 ≤ a.x2 - a.x1 := by linarith
  have h2 : min a.y2 b.y2 - max a.y1 b.y1 ≤ a.y2 - a.y1 := by linarith
  have h3 : (0:ℚ) ≤ min a.x2 b.x2 - max a.x1 b.x1 := by linarith
  have h4 : (0:ℚ) ≤ min a.y2 b.y2 - max a.y1 b.y1 := by linarith
  exact mul_le_mul h1 h2 h4 (by linarith)

lemma inter_nonneg (a b : BBox)
    (h : ¬(min a.x2 b.x2 < max a.x1 b.x1 ∨ min a.y2 b.y2 < max a.y1 b.y1)) :
    0 ≤ (min a.x2 b.x2 - max a.x1 b.x1) * (min a.y2 b.y2 - max a.y1 b.y1) := by
  push_neg at h
  obtain ⟨hx, hy⟩ := h
  have h3 : (0:ℚ) ≤ min a.x2 b.x2 - max a.x1 b.x1 := by linarith
  have h4 : (0:ℚ) ≤ min a.y2 b.y2 - max a.y1 b.y1 := by linarith
  positivity

lemma calculateIou_nonneg (a b : BBox) : 0 ≤ calculateIou a b := by
  unfold calculateIou
  dsimp only
  split
  · exact le_refl 0
  · next h =>
    split
    · next hu =>
      have hi := inter_nonneg a b h
      positivity
    · exact le_refl 0

lemma calculateIou_le_one (a b : BBox) (ha : a.valid) (hb : b.valid) :
    calculateIou a b ≤ 1 := by
  unfold calculateIou
  dsimp only
  split
  · norm_num
  · next h =>
    split
    · next hu =>
      set inter := (min a.x2 b.x2 - max a.x1 b.x1) * (min a.y2 b.y2 - max a.y1 b.y1) with hinter
      have h1 : inter ≤ a.area := inter_le_area_left a b ha h
      have h2 : inter ≤ b.area := by
        have := inter_le_area_left b a hb (by
          rw [min_comm a.x2, max_comm a.x1, min_comm a.y2, max_comm a.y1] at h
          exact h)
        rw [min_comm b.x2, max_comm b.x1, min_comm b.y2, max_comm b.y1] at this
        exact this
      rw [div_le_one hu]
      linarith
    · norm_num

lemma calculateIou_self (a : BBox) (ha : a.valid) (hpos : 0 < a.area) :
    calculateIou a a = 1 := by
  have hx : a.x1 ≤ a.x2 ∧ a.y1 ≤ a.y2 := ha
  unfold calculateIou
  simp only [max_self, min_self]
  rw [if_neg, if_pos]
  · show a.area / (a.area + a.area - a.area) = 1
    rw [add_sub_cancel_right]
    exact div_self (ne_of_gt hpos)
  · show (0:ℚ) < a.area + a.area - a.area
    rw [add_sub_cancel_right]; exact hpos
  · push_neg
    exact ⟨hx.1, hx.2⟩

lemma calculateIou_disjoint (a b : BBox) (h : a.disjoint b) :
    calculateIou a b = 0 := by
  unfold calculateIou
  rw [if_pos]
  rcases h with h | h | h | h
  · left; exact lt_of_le_of_lt (min_le_left _ _) (lt_of_lt_of_le h (le_max_right _ _))
  · left; exact lt_of_le_of_lt (min_le_right _ _) (lt_of_lt_of_le h (le_max_left _ _))
  · right; exact lt_of_le_of_lt (min_le_left _ _) (lt_of_lt_of_le h (le_max_right _ _))
  · right; exact lt_of_le_of_lt (min_le_right _ _) (lt_of_lt_of_le h (le_max_left _ _))

lemma calculateIou_degenerate (a b : BBox) (ha : a.valid) (hb : b.valid)
    (h : a.area ≤ 0 ∨ b.area ≤ 0) : calculateIou a b = 0 := by
  have haa : 0 ≤ a.area := by
    unfold BBox.area; obtain ⟨h1, h2⟩ := ha; nlinarith
  have hbb : 0 ≤ b.area := by
    unfold BBox.area; obtain ⟨h1, h2⟩ := hb; nlinarith
  unfold calculateIou
  dsimp only
  split
  · rfl
  · next hg =>
    set inter := (min a.x2 b.x2 - max a.x1 b.x1) * (min a.y2 b.y2 - max a.y1 b.y1) with hinter
    have h1 : inter ≤ a.area := inter_le_area_left a b ha hg
    have h2 : inter ≤ b.area := by
      have := inter_le_area_left b a hb (by
        rw [min_comm a.x2, max_comm a.x1, min_comm a.y2, max_comm a.y1] at hg
        exact hg)
      rw [min_comm b.x2, max_comm b.x1, min_comm b.y2, max_comm b.y1] at this
      exact this
    have h0 : 0 ≤ inter := inter_nonneg a b hg
    have hiz : inter = 0 := by
      rcases h with h | h
      · linarith
      · linarith
    split
    · rw [hiz, zero_div]
    · rfl

lemma BBox.area_nonneg (a : BBox) (ha : a.valid) : 0 ≤ a.area := by
  obtain ⟨h1, h2⟩ := ha
  unfold BBox.area
  nlinarith

lemma interNp_nonneg (a b : BBox) :
    0 ≤ max 0 (min a.x2 b.x2 - max a.x1 b.x1) *
        max 0 (min a.y2 b.y2 - max a.y1 b.y1) :=
  mul_nonneg (le_max_left 0 _) (le_max_left 0 _)

lemma interNp_le_area_left (a b : BBox) (ha : a.valid) :
    max 0 (min a.x2 b.x2 - max a.x1 b.x1) *
      max 0 (min a.y2 b.y2 - max a.y1 b.y1) ≤ a.area := by
  obtain ⟨h1, h2⟩ := ha
  have hdx : max 0 (min a.x2 b.x2 - max a.x1 b.x1) ≤ a.x2 - a.x1 := by
    apply max_le
    · linarith
    · have q1 : min a.x2 b.x2 ≤ a.x2 := min_le_left _ _
      have q2 : a.x1 ≤ max a.x1 b.x1 := le_max_left _ _
      linarith
  have hdy : max 0 (min a.y2 b.y2 - max a.y1 b.y1) ≤ a.y2 - a.y1 := by
    apply max_le
    · linarith
    · have q1 : min a.y2 b.y2 ≤ a.y2 := min_le_left _ _
      have q2 : a.y1 ≤ max a.y1 b.y1 := le_max_left _ _
      linarith
  unfold BBox.area
  exact mul_le_mul hdx hdy (le_max_left 0 _) (by linarith)

lemma interNp_le_area_right (a b : BBox) (hb : b.valid) :
    max 0 (min a.x2 b.x2 - max a.x1 b.x1) *
      max 0 (min a.y2 b.y2 - max a.y1 b.y1) ≤ b.area := by
  have h := interNp_le_area_left b a hb
  rw [min_comm b.x2, max_comm b.x1, min_comm b.y2, max_comm b.y1] at h
  exact h

lemma calculateIouNp_comm (a b : BBox) :
    calculateIouNp a b = calculateIouNp b a := by
  unfold calculateIouNp BBox.area
  rw [max_comm a.x1, max_comm a.y1, min_comm a.x2, min_comm a.y2]
  ring_nf

lemma calculateIouNp_bounds (a b : BBox) (ha : a.valid) (hb : b.valid) :
    0 ≤ calculateIouNp a b ∧ calculateIouNp a b ≤ 1 := by
  have h0 := interNp_nonneg a b
  have h1 := interNp_le_area_left a b ha
  have h2 := interNp_le_area_right a b hb
  have haa := a.area_nonneg ha
  have hbb := b.area_nonneg hb
  unfold calculateIouNp
  dsimp only
  split
  · exact ⟨le_refl 0, zero_le_one⟩
  · next hne =>
    have hpos : 0 < a.area + b.area -
        max 0 (min a.x2 b.x2 - max a.x1 b.x1) *
          max 0 (min a.y2 b.y2 - max a.y1 b.y1) := by
      rcases lt_or_eq_of_le (show (0:ℚ) ≤ a.area + b.area -
          max 0 (min a.x2 b.x2 - max a.x1 b.x1) *
            max 0 (min a.y2 b.y2 - max a.y1 b.y1) by linarith) with h | h
      · exact h
      · exact absurd h.symm hne
    constructor
    · exact div_nonneg h0 (le_of_lt hpos)
    · rw [div_le_one hpos]
      linarith

lemma calculateIouNp_self (a : BBox) (ha : a.valid) (hpos : 0 < a.area) :
    calculateIouNp a a = 1 := by
  obtain ⟨h1, h2⟩ := ha
  unfold calculateIouNp
  simp only [max_self, min_self]
  have hdx : max 0 (a.x2 - a.x1) = a.x2 - a.x1 := max_eq_right (by linarith)
  have hdy : max 0 (a.y2 - a.y1) = a.y2 - a.y1 := max_eq_right (by linarith)
  rw [hdx, hdy]
  have harea : (a.x2 - a.x1) * (a.y2 - a.y1) = a.area := rfl
  rw [harea, if_neg, add_sub_cancel_right]
  · exact div_self (ne_of_gt hpos)
  · rw [add_sub_cancel_right]
    exact ne_of_gt hpos

lemma calculateIouNp_disjoint (a b : BBox) (h : a.disjoint b) :
    calculateIouNp a b = 0 := by
  have hinter : max 0 (min a.x2 b.x2 - max a.x1 b.x1) *
      max 0 (min a.y2 b.y2 - max a.y1 b.y1) = 0 := by
    rcases h with h | h | h | h
    · have hneg : min a.x2 b.x2 - max a.x1 b.x1 ≤ 0 := by
        have q1 : min a.x2 b.x2 ≤ a.x2 := min_le_left _ _
        have q2 : b.x1 ≤ max a.x1 b.x1 := le_max_right _ _
        linarith
      rw [max_eq_left hneg, zero_mul]
    · have hneg : min a.x2 b.x2 - max a.x1 b.x1 ≤ 0 := by
        have q1 : min a.x2 b.x2 ≤ b.x2 := min_le_right _ _
        have q2 : a.x1 ≤ max a.x1 b.x1 := le_max_left _ _
        linarith
      rw [max_eq_left hneg, zero_mul]
    · have hneg : min a.y2 b.y2 - max a.y1 b.y1 ≤ 0 := by
        have q1 : min a.y2 b.y2 ≤ a.y2 := min_le_left _ _
        have q2 : b.y1 ≤ max a.y1 b.y1 := le_max_right _ _
        linarith
      rw [max_eq_left hneg, mul_zero]
    · have hneg : min a.y2 b.y2 - max a.y1 b.y1 ≤ 0 := by
        have q1 : min a.y2 b.y2 ≤ b.y2 := min_le_right _ _
        have q2 : a.y1 ≤ max a.y1 b.y1 := le_max_left _ _
        linarith
      rw [max_eq_left hneg, mul_zero]
  unfold calculateIouNp
  dsimp only
  rw [hinter]
  split
  · rfl
  · exact zero_div _

lemma calculateIouNp_degenerate (a b : BBox) (ha : a.valid) (hb : b.valid)
    (h : a.area ≤ 0 ∨ b.area ≤ 0) : calculateIouNp a b = 0 := by
  have h0 := interNp_nonneg a b
  have h1 := interNp_le_area_left a b ha
  have h2 := interNp_le_area_right a b hb
  have hinter : max 0 (min a.x2 b.x2 - max a.x1 b.x1) *
      max 0 (min a.y2 b.y2 - max a.y1 b.y1) = 0 := by
    rcases h with h | h
    · linarith
    · linarith
  unfold calculateIouNp
  dsimp only
  rw [hinter]
  split
  · rfl
  · exact zero_div _

/-- C5: for valid boxes, BOTH cited IoU implementations — the dict-based one
of behavior_service/bbox_tracker (`calculateIou`) and the numpy-based one of
individual_behavior_service (`calculateIouNp`) — are symmetric, bounded in
[0,1], equal 1 on a box of positive area paired with itself, equal 0 on
disjoint boxes and when either box has non-positive area, and never divide by
zero (each returns 0 under its explicit union guard). -/
theorem iou_algebraic_properties (a b : BBox) (ha : a.valid) (hb : b.valid) :
    calculateIou a b = calculateIou b a ∧
    0 ≤ calculateIou a b ∧ calculateIou a b ≤ 1 ∧
    (0 < a.area → calculateIou a a = 1) ∧
    (a.disjoint b → calculateIou a b = 0) ∧
    ((a.area ≤ 0 ∨ b.area ≤ 0) → calculateIou a b = 0) ∧
    calculateIouNp a b = calculateIouNp b a ∧
    0 ≤ calculateIouNp a b ∧ calculateIouNp a b ≤ 1 ∧
    (0 < a.area → calculateIouNp a a = 1) ∧
    (a.disjoint b → calculateIouNp a b = 0) ∧
    ((a.area ≤ 0 ∨ b.area ≤ 0) → calculateIouNp a b = 0) :=
  ⟨calculateIou_comm a b, calculateIou_nonneg a b, calculateIou_le_one a b ha hb,
   fun h => calculateIou_self a ha h,
   fun h => calculateIou_disjoint a b h,
   fun h => calculateIou_degenerate a b ha hb h,
   calculateIouNp_comm a b,
   (calculateIouNp_bounds a b ha hb).1, (calculateIouNp_bounds a b ha hb).2,
   fun h => calculateIouNp_self a ha h,
   fun h => calculateIouNp_disjoint a b h,
   fun h => calculateIouNp_degenerate a b ha hb h⟩

/-- Witness for C5 at concrete boxes `a = (0,0,10,10)`, `b = (5,5,15,15)`,
covering both IoU implementations. -/
theorem iou_algebraic_properties_witness :
    (BBox.mk 0 0 10 10).valid ∧ (BBox.mk 5 5 15 15).valid ∧
    calculateIou (BBox.mk 0 0 10 10) (BBox.mk 5 5 15 15) =
      calculateIou (BBox.mk 5 5 15 15) (BBox.mk 0 0 10 10) ∧
    calculateIou (BBox.mk 0 0 10 10) (BBox.mk 0 0 10 10) = 1 ∧
    calculateIouNp (BBox.mk 0 0 10 10) (BBox.mk 5 5 15 15) =
      calculateIouNp (BBox.mk 5 5 15 15) (BBox.mk 0 0 10 10) ∧
    calculateIouNp (BBox.mk 0 0 10 10) (BBox.mk 0 0 10 10) = 1 := by
  have hva : (BBox.mk 0 0 10 10).valid := by constructor <;> norm_num
  have hvb : (BBox.mk 5 5 15 15).valid := by constructor <;> norm_num
  obtain ⟨hsymm, _, _, hself, _, _, hsymmNp, _, _, hselfNp, _, _⟩ :=
    iou_algebraic_properties (BBox.mk 0 0 10 10) (BBox.mk 5 5 15 15) hva hvb
  have hpos : (0:ℚ) < (BBox.mk 0 0 10 10).area := by
    show (0:ℚ) < (10 - 0) * (10 - 0)
    norm_num
  exact ⟨hva, hvb, hsymm, hself hpos, hsymmNp, hselfNp hpos⟩

/-! ## Behavior classifiers (behavior_service.py, bbox_tracker_service.py) -/

/-- Head-pose labels used across the services. -/
inductive HeadPose where
  | lookingUp
  | lookingDown
  | neutral
  | unknown
deriving DecidableEq, Repr

/-- Hand-activity labels used across the services. -/
inductive HandActivity where
  | writing
  | usingPhone
  | resting
  | neutral
  | unknown
deriving DecidableEq, Repr

/-- The tunable behavior parameters (`behavior_params` dictionaries). -/
structure BehaviorParams where
  headUpThreshold : ℚ
  headDownThreshold : ℚ
  writingThreshold : ℚ
  phoneThreshold : ℚ
deriving DecidableEq, Repr

/-- The default parameters shared by the services:
`head_up_threshold=2, head_down_threshold=8, writing_threshold=30,
phone_threshold=-10`. -/
def defaultBehaviorParams : BehaviorParams :=
  { headUpThreshold := 2, headDownThreshold := 8,
    writingThreshold := 30, phoneThreshold := -10 }

/-- One COCO keypoint `[x, y, confidence]`. -/
structure Kpt where
  x : ℚ
  y : ℚ
  conf : ℚ
deriving DecidableEq, Repr

/-- The keypoints a classifier reads from a 17-point COCO keypoint set
(indices 0-10: nose, eyes, ears, shoulders, elbows, wrists). -/
structure KeypointSet where
  nose : Kpt
  leftEye : Kpt
  rightEye : Kpt
  leftEar : Kpt
  rightEar : Kpt
  leftShoulder : Kpt
  rightShoulder : Kpt
  leftElbow : Kpt
  rightElbow : Kpt
  leftWrist : Kpt
  rightWrist : Kpt
deriving DecidableEq, Repr

/-- behavior_service visibility test: `keypoints[i][2] > 0.5`
(behavior_service.py lines 209-213). -/
def bsVisible (k : Kpt) : Bool := 1/2 < k.conf

/-- Model of `ClassroomBehaviorAnalyzer._analyze_head_pose` (behavior_service.py lines
232-255): nose y relative to the shoulder-midpoint y, against the two
thresholds. -/
def bsAnalyzeHeadPose (p : BehaviorParams) (nose leftShoulder rightShoulder : ℚ × ℚ) :
    HeadPose :=
  let shoulderCenterY := (leftShoulder.2 + rightShoulder.2) / 2
  let verticalDiff := nose.2 - shoulderCenterY
  if verticalDiff < p.headUpThreshold then .lookingUp
  else if verticalDiff > p.headDownThreshold then .lookingDown
  else .neutral

/-- Model of `ClassroomBehaviorAnalyzer._analyze_hand_activity` (behavior_service.py
lines 257-291): nose-relative scheme; prefers the left wrist when both are
visible, `unknown` when neither is. -/
def bsAnalyzeHandActivity (p : BehaviorParams)
    (leftWrist rightWrist : Option (ℚ × ℚ)) (nose : ℚ × ℚ) : HandActivity :=
  match leftWrist, rightWrist with
  | none, none => .unknown
  | some w, _ | none, some w =>
    let verticalDiff := w.2 - nose.2
    if verticalDiff > p.writingThreshold then .writing
    else if verticalDiff < p.phoneThreshold then .usingPhone
    else .resting

/-- The pair of labels produced for one person. -/
structure PoseBehavior where
  headPose : HeadPose
  handActivity : HandActivity
deriving DecidableEq, Repr

/-- Model of `ClassroomBehaviorAnalyzer._analyze_single_person_pose`
(behavior_service.py lines 197-230): returns `{}` (here `none`) when the nose
or either shoulder is not visible above 0.5 confidence; wrists are optional. -/
def bsAnalyzeSinglePersonPose (p : BehaviorParams) (k : KeypointSet) :
    Option PoseBehavior :=
  let nose := if bsVisible k.nose then some (k.nose.x, k.nose.y) else none
  let ls := if bsVisible k.leftShoulder then some (k.leftShoulder.x, k.leftShoulder.y) else none
  let rs := if bsVisible k.rightShoulder then some (k.rightShoulder.x, k.rightShoulder.y) else none
  let lw := if bsVisible k.leftWrist then some (k.leftWrist.x, k.leftWrist.y) else none
  let rw := if bsVisible k.rightWrist then some (k.rightWrist.x, k.rightWrist.y) else none
  match nose, ls, rs with
  | some n, some l, some r =>
      some { headPose := bsAnalyzeHeadPose p n l r,
             handActivity := bsAnalyzeHandActivity p lw rw n }
  | _, _, _ => none

/-- Model of `ClassroomBehaviorAnalyzer._analyze_student_behaviors`
(behavior_service.py lines 155-195): analyzes each detected person and keeps
only truthy results (`if behavior:`), so a `{}` result drops the person. -/
def bsAnalyzeStudentBehaviors (p : BehaviorParams) (persons : List KeypointSet) :
    List PoseBehavior :=
  persons.filterMap (bsAnalyzeSinglePersonPose p)

/-- bbox_tracker_service visibility test: `kpt[2] > threshold` with the
default `threshold=0.3` (bbox_tracker_service.py lines 401-403). -/
def btVisible (k : Kpt) : Bool := 3/10 < k.conf

/-- Model of `BBoxTrackerAnalyzer._calculate_head_pose` (bbox_tracker_service.py lines
438-461): nose y relative to the eye-midpoint y; only
`head_down_threshold` is consulted, and the result is binary. -/
def btCalculateHeadPose (p : BehaviorParams) (nose leftEye rightEye : ℚ × ℚ) :
    HeadPose :=
  let eyeCenterY := (leftEye.2 + rightEye.2) / 2
  let noseDiff := nose.2 - eyeCenterY
  if noseDiff ≤ p.headDownThreshold then .lookingUp else .lookingDown

/-- Model of `BBoxTrackerAnalyzer._calculate_hand_activity` (bbox_tracker_service.py
lines 463-482): averages BOTH wrists and BOTH shoulders unconditionally. -/
def btCalculateHandActivity (p : BehaviorParams)
    (leftShoulder rightShoulder _leftElbow _rightElbow leftWrist rightWrist : ℚ × ℚ) :
    HandActivity :=
  let avgWristY := (leftWrist.2 + rightWrist.2) / 2
  let avgShoulderY := (leftShoulder.2 + rightShoulder.2) / 2
  let wristDiff := avgWristY - avgShoulderY
  if wristDiff > p.writingThreshold then .writing
  else if wristDiff < p.phoneThreshold then .usingPhone
  else .neutral

/-- Model of `BBoxTrackerAnalyzer._analyze_single_person_pose`
(bbox_tracker_service.py lines 382-436): head pose needs a visible nose and
at least one visible eye, hand activity needs one visible shoulder and one
visible wrist; missing landmarks default to `neutral` and the person is
always labelled. -/
def btAnalyzeSinglePersonPose (p : BehaviorParams) (k : KeypointSet) :
    PoseBehavior :=
  let headPose :=
    if btVisible k.nose ∧ (btVisible k.leftEye ∨ btVisible k.rightEye) then
      btCalculateHeadPose p (k.nose.x, k.nose.y)
        (k.leftEye.x, k.leftEye.y) (k.rightEye.x, k.rightEye.y)
    else .neutral
  let handActivity :=
    if (btVisible k.leftShoulder ∨ btVisible k.rightShoulder) ∧
       (btVisible k.leftWrist ∨ btVisible k.rightWrist) then
      btCalculateHandActivity p
        (k.leftShoulder.x, k.leftShoulder.y) (k.rightShoulder.x, k.rightShoulder.y)
        (k.leftElbow.x, k.leftElbow.y) (k.rightElbow.x, k.rightElbow.y)
        (k.leftWrist.x, k.leftWrist.y) (k.rightWrist.x, k.rightWrist.y)
    else .neutral
  { headPose := headPose, handActivity := handActivity }

/-- A keypoint with zero confidence (never visible). -/
def kptInvisible : Kpt := { x := 0, y := 0, conf := 0 }

/-- Keypoint set for the spec example: nose at y=100, both shoulders at y=90,
all visible; eyes, ears, elbows and wrists not visible. -/
def kC3 : KeypointSet :=
  { nose := { x := 50, y := 100, conf := 9/10 },
    leftEye := kptInvisible, rightEye := kptInvisible,
    leftEar := kptInvisible, rightEar := kptInvisible,
    leftShoulder := { x := 40, y := 90, conf := 9/10 },
    rightShoulder := { x := 60, y := 90, conf := 9/10 },
    leftElbow := kptInvisible, rightElbow := kptInvisible,
    leftWrist := kptInvisible, rightWrist := kptInvisible }

/-- C3: whenever nose and both shoulders are visible above the confidence
threshold and the thresholds are ordered, the shoulder-relative classifier
labels the person and the head pose is exactly determined by
`vertical_diff = nose.y - mean(shoulder.y)` against the two thresholds. -/
theorem head_pose_shoulder_relative (p : BehaviorParams) (k : KeypointSet)
    (hn : bsVisible k.nose = true) (hl : bsVisible k.leftShoulder = true)
    (hr : bsVisible k.rightShoulder = true)
    (hord : p.headUpThreshold ≤ p.headDownThreshold) :
    ∃ b, bsAnalyzeSinglePersonPose p k = some b ∧
      (b.headPose = .lookingUp ↔
        k.nose.y - (k.leftShoulder.y + k.rightShoulder.y) / 2 < p.headUpThreshold) ∧
      (b.headPose = .lookingDown ↔
        k.nose.y - (k.leftShoulder.y + k.rightShoulder.y) / 2 > p.headDownThreshold) ∧
      (b.headPose = .neutral ↔
        p.headUpThreshold ≤ k.nose.y - (k.leftShoulder.y + k.rightShoulder.y) / 2 ∧
        k.nose.y - (k.leftShoulder.y + k.rightShoulder.y) / 2 ≤ p.headDownThreshold) := by
  simp only [bsAnalyzeSinglePersonPose, hn, hl, hr, if_true]
  refine ⟨_, rfl, ?_⟩
  simp only [bsAnalyzeHeadPose]
  set vd := k.nose.y - (k.leftShoulder.y + k.rightShoulder.y) / 2 with hvd
  by_cases h1 : vd < p.headUpThreshold
  · rw [if_pos h1]
    refine ⟨by simp [h1], ?_, ?_⟩
    · simp only [reduceCtorEq, false_iff]
      intro hgt
      have := lt_of_lt_of_le h1 hord
      linarith
    · simp only [reduceCtorEq, false_iff]
      intro hc
      linarith [hc.1]
  · rw [if_neg h1]
    by_cases h2 : vd > p.headDownThreshold
    · rw [if_pos h2]
      exact ⟨by simp [h1], by simp [h2], by
        simp only [reduceCtorEq, false_iff]
        intro hc
        linarith [hc.2]⟩
    · rw [if_neg h2]
      refine ⟨by simp [h1], by simp [h2], ?_⟩
      simp only [true_iff]
      exact ⟨le_of_not_lt h1, le_of_not_lt h2⟩

/-- Witness for C3: the spec example (nose.y=100, shoulders at y=90,
thresholds 2 and 8) classifies as looking_down. -/
theorem head_pose_shoulder_relative_witness :
    ∃ b, bsAnalyzeSinglePersonPose defaultBehaviorParams kC3 = some b ∧
      b.headPose = .lookingDown := by
  obtain ⟨b, hb, _, hdown, _⟩ :=
    head_pose_shoulder_relative defaultBehaviorParams kC3
      (by norm_num [bsVisible, kC3]) (by norm_num [bsVisible, kC3])
      (by norm_num [bsVisible, kC3]) (by norm_num [defaultBehaviorParams])
  refine ⟨b, hb, hdown.mpr ?_⟩
  show (100 : ℚ) - (90 + 90) / 2 > (8 : ℚ)
  norm_num

/-- The hand-activity rule as the claim words it: `wrist_diff` is the mean of
the VISIBLE wrists minus the mean of the VISIBLE shoulders.  Stated only for
comparison with the code; the code does not implement this. -/
def claimHandActivity (p : BehaviorParams) (k : KeypointSet) : HandActivity :=
  let wrists := [k.leftWrist, k.rightWrist].filter (fun w => btVisible w)
  let shoulders := [k.leftShoulder, k.rightShoulder].filter (fun s => btVisible s)
  if wrists.isEmpty ∨ shoulders.isEmpty then .unknown
  else
    let wristDiff := (wrists.map Kpt.y).sum / (wrists.length : ℚ) -
                     (shoulders.map Kpt.y).sum / (shoulders.length : ℚ)
    if wristDiff > p.writingThreshold then .writing
    else if wristDiff < p.phoneThreshold then .usingPhone
    else .resting

/-- Keypoint set refuting C4 as stated: both shoulders visible at y=100, left
wrist visible at y=150, right wrist NOT visible but carrying y=0; the head
keypoints are not visible. -/
def kC4 : KeypointSet :=
  { nose := kptInvisible, leftEye := kptInvisible, rightEye := kptInvisible,
    leftEar := kptInvisible, rightEar := kptInvisible,
    leftShoulder := { x := 0, y := 100, conf := 9/10 },
    rightShoulder := { x := 10, y := 100, conf := 9/10 },
    leftElbow := kptInvisible, rightElbow := kptInvisible,
    leftWrist := { x := 0, y := 150, conf := 9/10 },
    rightWrist := { x := 5, y := 0, conf := 0 } }

/-- Counterexample to C4: at `kC4` one wrist and both shoulders are visible,
the claimed rule (mean over visible wrists: diff = 150-100 = 50 > 30) demands
`writing`, but the code averages the invisible right wrist in as well
(diff = 75-100 = -25 < -10) and returns `using_phone`. -/
theorem hand_activity_visible_mean_counterexample :
    btVisible kC4.leftWrist = true ∧ btVisible kC4.leftShoulder = true ∧
    btVisible kC4.rightShoulder = true ∧
    claimHandActivity defaultBehaviorParams kC4 = .writing ∧
    (btAnalyzeSinglePersonPose defaultBehaviorParams kC4).handActivity =
      .usingPhone := by
  refine ⟨by norm_num [btVisible, kC4], by norm_num [btVisible, kC4],
          by norm_num [btVisible, kC4], ?_, ?_⟩
  · simp only [claimHandActivity, kC4, btVisible, kptInvisible, List.filter,
      defaultBehaviorParams]
    norm_num
  · simp only [btAnalyzeSinglePersonPose, btCalculateHandActivity, kC4,
      btVisible, kptInvisible, defaultBehaviorParams]
    norm_num

/-- C4 amended: in the bbox-tracker scheme `wrist_diff` averages BOTH wrists
and BOTH shoulders regardless of visibility, and when no wrist (or no
shoulder) is visible the result is `neutral`, not `unknown`; in the
nose-relative scheme (behavior_service) a single wrist is used, the left one
preferred, and no visible wrist gives `unknown`. -/
theorem hand_activity_amended :
    (∀ (p : BehaviorParams) (k : KeypointSet),
      (btVisible k.leftShoulder = true ∨ btVisible k.rightShoulder = true) →
      (btVisible k.leftWrist = true ∨ btVisible k.rightWrist = true) →
      p.phoneThreshold ≤ p.writingThreshold →
      (((btAnalyzeSinglePersonPose p k).handActivity = .writing ↔
          (k.leftWrist.y + k.rightWrist.y) / 2 -
            (k.leftShoulder.y + k.rightShoulder.y) / 2 > p.writingThreshold) ∧
       ((btAnalyzeSinglePersonPose p k).handActivity = .usingPhone ↔
          (k.leftWrist.y + k.rightWrist.y) / 2 -
            (k.leftShoulder.y + k.rightShoulder.y) / 2 < p.phoneThreshold) ∧
       ((btAnalyzeSinglePersonPose p k).handActivity = .neutral ↔
          p.phoneThreshold ≤ (k.leftWrist.y + k.rightWrist.y) / 2 -
              (k.leftShoulder.y + k.rightShoulder.y) / 2 ∧
          (k.leftWrist.y + k.rightWrist.y) / 2 -
              (k.leftShoulder.y + k.rightShoulder.y) / 2 ≤ p.writingThreshold))) ∧
    (∀ (p : BehaviorParams) (k : KeypointSet),
      ((btVisible k.leftWrist = false ∧ btVisible k.rightWrist = false) ∨
       (btVisible k.leftShoulder = false ∧ btVisible k.rightShoulder = false)) →
      (btAnalyzeSinglePersonPose p k).handActivity = .neutral) ∧
    (∀ (p : BehaviorParams) (nose : ℚ × ℚ),
      bsAnalyzeHandActivity p none none nose = .unknown) ∧
    (∀ (p : BehaviorParams) (lw : ℚ × ℚ) (rw : Option (ℚ × ℚ)) (nose : ℚ × ℚ),
      bsAnalyzeHandActivity p (some lw) rw nose =
        if lw.2 - nose.2 > p.writingThreshold then .writing
        else if lw.2 - nose.2 < p.phoneThreshold then .usingPhone
        else .resting) := by
  refine ⟨?_, ?_, ?_, ?_⟩
  · intro p k hs hw hord
    have hcond : (btVisible k.leftShoulder ∨ btVisible k.rightShoulder) ∧
        (btVisible k.leftWrist ∨ btVisible k.rightWrist) := by
      constructor
      · rcases hs with h | h
        · exact Or.inl (by rw [h])
        · exact Or.inr (by rw [h])
      · rcases hw with h | h
        · exact Or.inl (by rw [h])
        · exact Or.inr (by rw [h])
    simp only [btAnalyzeSinglePersonPose, if_pos hcond, btCalculateHandActivity]
    set wd := (k.leftWrist.y + k.rightWrist.y) / 2 -
      (k.leftShoulder.y + k.rightShoulder.y) / 2 with hwd
    by_cases h1 : wd > p.writingThreshold
    · rw [if_pos h1]
      refine ⟨by simp [h1], ?_, ?_⟩
      · simp only [reduceCtorEq, false_iff]
        intro h2; linarith
      · simp only [reduceCtorEq, false_iff]
        intro h2; linarith [h2.2]
    · rw [if_neg h1]
      by_cases h2 : wd < p.phoneThreshold
      · rw [if_pos h2]
        exact ⟨by simp [h1], by simp [h2], by
          simp only [reduceCtorEq, false_iff]
          intro h3; linarith [h3.1]⟩
      · rw [if_neg h2]
        refine ⟨by simp [h1], by simp [h2], ?_⟩
        simp only [true_iff]
        exact ⟨le_of_not_lt h2, le_of_not_lt h1⟩
  · intro p k h
    have hcond : ¬((btVisible k.leftShoulder ∨ btVisible k.rightShoulder) ∧
        (btVisible k.leftWrist ∨ btVisible k.rightWrist)) := by
      rcases h with ⟨h1, h2⟩ | ⟨h1, h2⟩
      · intro hc
        rcases hc.2 with h | h
        · rw [h1] at h; simp at h
        · rw [h2] at h; simp at h
      · intro hc
        rcases hc.1 with h | h
        · rw [h1] at h; simp at h
        · rw [h2] at h; simp at h
    simp only [btAnalyzeSinglePersonPose, if_neg hcond]
  · intro p nose
    rfl
  · intro p lw rw nose
    cases rw <;> rfl

/-- Keypoint set for the spec example in C4: both wrists visible at y=150,
both shoulders visible at y=100. -/
def kC4w : KeypointSet :=
  { nose := kptInvisible, leftEye := kptInvisible, rightEye := kptInvisible,
    leftEar := kptInvisible, rightEar := kptInvisible,
    leftShoulder := { x := 0, y := 100, conf := 9/10 },
    rightShoulder := { x := 10, y := 100, conf := 9/10 },
    leftElbow := kptInvisible, rightElbow := kptInvisible,
    leftWrist := { x := 0, y := 150, conf := 9/10 },
    rightWrist := { x := 5, y := 150, conf := 9/10 } }

/-- Witness for the amended C4: with both wrists at y=150 and shoulders at
y=100 under the default thresholds the bbox-tracker scheme yields `writing`. -/
theorem hand_activity_amended_witness :
    (btAnalyzeSinglePersonPose defaultBehaviorParams kC4w).handActivity =
      .writing := by
  have h := hand_activity_amended.1 defaultBehaviorParams kC4w
    (Or.inl (by norm_num [btVisible, kC4w]))
    (Or.inl (by norm_num [btVisible, kC4w]))
    (by norm_num [defaultBehaviorParams])
  refine h.1.mpr ?_
  show (150 + 150 : ℚ) / 2 - (100 + 100) / 2 > (30 : ℚ)
  norm_num

/-- Keypoint set refuting C10 as stated for the class-wide analyzer: nose
confidence 0.2 (below the 0.5 visibility threshold), everything else needed
is visible. -/
def kC10 : KeypointSet :=
  { nose := { x := 50, y := 100, conf := 1/5 },
    leftEye := kptInvisible, rightEye := kptInvisible,
    leftEar := kptInvisible, rightEar := kptInvisible,
    leftShoulder := { x := 40, y := 90, conf := 9/10 },
    rightShoulder := { x := 60, y := 90, conf := 9/10 },
    leftElbow := kptInvisible, rightElbow := kptInvisible,
    leftWrist := { x := 0, y := 150, conf := 9/10 },
    rightWrist := { x := 5, y := 150, conf := 9/10 } }

/-- Counterexample to C10: in `ClassroomBehaviorAnalyzer` a person whose nose
is not visible above the confidence threshold is silently dropped from the
frame's classified results (the behaviors list for a one-person frame is
empty) instead of appearing with an `unknown`/`neutral` label. -/
theorem missing_landmarks_omission_counterexample :
    bsVisible kC10.nose = false ∧
    bsAnalyzeStudentBehaviors defaultBehaviorParams [kC10] = [] := by
  constructor
  · norm_num [bsVisible, kC10]
  · have hnone : bsAnalyzeSinglePersonPose defaultBehaviorParams kC10 = none := by
      simp only [bsAnalyzeSinglePersonPose, bsVisible, kC10]
      norm_num
    simp [bsAnalyzeStudentBehaviors, hnone]

/-- C10 amended: the bbox-tracker scheme labels every person, defaulting the
missing part to `neutral`; the class-wide shoulder-relative scheme
(behavior_service) instead returns no result for a person whose nose or
either shoulder is not visible, and that person is omitted from the frame's
results. -/
theorem missing_landmarks_amended :
    (∀ (p : BehaviorParams) (k : KeypointSet),
      ¬(btVisible k.nose ∧ (btVisible k.leftEye ∨ btVisible k.rightEye)) →
      (btAnalyzeSinglePersonPose p k).headPose = .neutral) ∧
    (∀ (p : BehaviorParams) (k : KeypointSet),
      ¬((btVisible k.leftShoulder ∨ btVisible k.rightShoulder) ∧
        (btVisible k.leftWrist ∨ btVisible k.rightWrist)) →
      (btAnalyzeSinglePersonPose p k).handActivity = .neutral) ∧
    (∀ (p : BehaviorParams) (k : KeypointSet),
      (bsVisible k.nose = false ∨ bsVisible k.leftShoulder = false ∨
       bsVisible k.rightShoulder = false) →
      bsAnalyzeSinglePersonPose p k = none) ∧
    (∀ (p : BehaviorParams) (k : KeypointSet) (persons : List KeypointSet),
      bsAnalyzeSinglePersonPose p k = none →
      bsAnalyzeStudentBehaviors p (k :: persons) =
        bsAnalyzeStudentBehaviors p persons) := by
  refine ⟨?_, ?_, ?_, ?_⟩
  · intro p k h
    simp only [btAnalyzeSinglePersonPose, if_neg h]
  · intro p k h
    simp only [btAnalyzeSinglePersonPose, if_neg h]
  · intro p k h
    simp only [bsAnalyzeSinglePersonPose]
    rcases h with h | h | h <;> rw [h] <;> simp
  · intro p k persons h
    simp [bsAnalyzeStudentBehaviors, h]

/-- Witness for the amended C10: applying the amended theorem at `kC10`
shows the classifier returns no result and the person disappears from the
frame list. -/
theorem missing_landmarks_amended_witness :
    bsAnalyzeSinglePersonPose defaultBehaviorParams kC10 = none ∧
    bsAnalyzeStudentBehaviors defaultBehaviorParams (kC10 :: []) =
      bsAnalyzeStudentBehaviors defaultBehaviorParams [] := by
  have h3 := missing_landmarks_amended.2.2.1 defaultBehaviorParams kC10
    (Or.inl (by norm_num [bsVisible, kC10]))
  exact ⟨h3, missing_landmarks_amended.2.2.2 defaultBehaviorParams kC10 [] h3⟩

/-! ## Composite behavior pipeline (pose2_detection_service.py) -/

/-- A named keypoint as parsed by `detect_poses` / `_parse_pose_result`:
`visible` is precomputed as `confidence > 0.5`. -/
structure NamedKeypoint where
  name : String
  x : ℚ
  y : ℚ
  confidence : ℚ
  visible : Bool
deriving DecidableEq, Repr

/-- A detected desktop object as consumed by `_analyze_behaviors`: its class
name and its center point. -/
structure DetObject where
  className : String
  center : ℚ × ℚ
deriving DecidableEq, Repr

/-- A parsed person detection: bounding box, named keypoints, and the head
pose precomputed at parse time. -/
structure Person where
  bbox : BBox
  keypoints : List NamedKeypoint
  headPose : HeadPose
deriving Repr

/-- The keypoint scan at the start of the looking-down branch of
`_analyze_behaviors` (pose2_detection_service.py lines 950-956): the y of the
(last) visible nose keypoint, if any. -/
def extractNoseY (kps : List NamedKeypoint) : Option ℚ :=
  kps.foldl (fun acc kp =>
    if kp.name = "nose" ∧ kp.visible then some kp.y else acc) none

/-- Model of `PoseDetectionService._find_nearby_objects` (pose2_detection_service.py
lines 991-1020): an object is in front of the person iff its center is below
the nose (`center.y > nose_y`) and its center x lies strictly inside the
person box widened by 30% of the box width on each side; with no nose, no
object is associated. -/
def findNearbyObjects (objects : List DetObject) (personBbox : BBox)
    (noseY : Option ℚ) : List DetObject :=
  match noseY with
  | none => []
  | some ny =>
    let personWidth := personBbox.x2 - personBbox.x1
    objects.filter (fun o =>
      o.center.2 > ny ∧
      personBbox.x1 - personWidth * (3/10) < o.center.1 ∧
      o.center.1 < personBbox.x2 + personWidth * (3/10))

/-- Composite behavior labels of the aggregated pipeline. -/
inductive CompositeBehavior where
  | listening
  | usingComputer
  | usingPhone
  | readingWriting
  | neutral
  | unknown
deriving DecidableEq, Repr

/-- The per-person body of `PoseDetectionService._analyze_behaviors`
(pose2_detection_service.py lines 923-987). -/
def analyzeBehaviorSingle (person : Person) (objects : List DetObject) :
    CompositeBehavior :=
  if person.headPose = .lookingUp then .listening
  else if person.headPose = .lookingDown then
    let nearby := findNearbyObjects objects person.bbox (extractNoseY person.keypoints)
    if nearby.any (fun o => o.className == "laptop") then .usingComputer
    else if nearby.any (fun o => o.className == "cell phone") then .usingPhone
    else .readingWriting
  else .neutral

/-- Model of `PoseDetectionService._analyze_behaviors` over the person list
(pose2_detection_service.py lines 910-989). -/
def analyzeBehaviors (persons : List Person) (objects : List DetObject) :
    List CompositeBehavior :=
  persons.map (fun q => analyzeBehaviorSingle q objects)

/-- C2: the composite behavior label is listening iff the head pose is
looking_up; using_computer iff looking_down with an associated laptop;
using_phone iff looking_down with an associated phone and no laptop;
reading_writing iff looking_down with neither; and neutral exactly for every
other head pose (neutral or unknown). -/
theorem composite_behavior_classification (person : Person)
    (objects : List DetObject) :
    (analyzeBehaviorSingle person objects = .listening ↔
      person.headPose = .lookingUp) ∧
    (analyzeBehaviorSingle person objects = .usingComputer ↔
      person.headPose = .lookingDown ∧
      ∃ o ∈ findNearbyObjects objects person.bbox (extractNoseY person.keypoints),
        o.className = "laptop") ∧
    (analyzeBehaviorSingle person objects = .usingPhone ↔
      person.headPose = .lookingDown ∧
      (∃ o ∈ findNearbyObjects objects person.bbox (extractNoseY person.keypoints),
        o.className = "cell phone") ∧
      ¬∃ o ∈ findNearbyObjects objects person.bbox (extractNoseY person.keypoints),
        o.className = "laptop") ∧
    (analyzeBehaviorSingle person objects = .readingWriting ↔
      person.headPose = .lookingDown ∧
      (¬∃ o ∈ findNearbyObjects objects person.bbox (extractNoseY person.keypoints),
        o.className = "laptop") ∧
      ¬∃ o ∈ findNearbyObjects objects person.bbox (extractNoseY person.keypoints),
        o.className = "cell phone") ∧
    (analyzeBehaviorSingle person objects = .neutral ↔
      person.headPose ≠ .lookingUp ∧ person.headPose ≠ .lookingDown) := by
  set nearby := findNearbyObjects objects person.bbox (extractNoseY person.keypoints)
    with hnb
  have hany : ∀ (s : String),
      nearby.any (fun o => o.className == s) = true ↔
      ∃ o ∈ nearby, o.className = s := by
    intro s
    rw [List.any_eq_true]
    constructor
    · rintro ⟨o, ho, he⟩
      exact ⟨o, ho, by simpa using he⟩
    · rintro ⟨o, ho, he⟩
      exact ⟨o, ho, by simpa using he⟩
  unfold analyzeBehaviorSingle
  rw [← hnb]
  by_cases hup : person.headPose = .lookingUp
  · rw [if_pos hup]
    refine ⟨by simp [hup], ?_, ?_, ?_, ?_⟩ <;>
      simp [hup, reduceCtorEq]
  · rw [if_neg hup]
    by_cases hdown : person.headPose = .lookingDown
    · rw [if_pos hdown]
      by_cases hl : nearby.any (fun o => o.className == "laptop") = true
      · rw [if_pos hl]
        rw [hany] at hl
        refine ⟨by simp [hup], by simp [hdown, hl], ?_, ?_, ?_⟩ <;>
          simp [hdown, hl, reduceCtorEq]
      · rw [if_neg hl]
        rw [hany] at hl
        by_cases hp : nearby.any (fun o => o.className == "cell phone") = true
        · rw [if_pos hp]
          rw [hany] at hp
          refine ⟨by simp [hup], by simp [hl], by simp [hdown, hp, hl], ?_, ?_⟩ <;>
            simp [hdown, hp, hl, reduceCtorEq]
        · rw [if_neg hp]
          rw [hany] at hp
          refine ⟨by simp [hup], by simp [hl], by simp [hp], by simp [hdown, hl, hp], ?_⟩
          simp [hdown, reduceCtorEq]
    · rw [if_neg hdown]
      refine ⟨by simp [hup], by simp [hdown], by simp [hdown], by simp [hdown], ?_⟩
      simp [hup, hdown]

/-- C7: with a visible nose at height `ny`, an object is associated iff its
center lies below the nose and its center x lies strictly between
`x1 - 0.3*width` and `x2 + 0.3*width`; with no visible nose, no object is
associated. -/
theorem in_front_of_association (objects : List DetObject) (personBbox : BBox)
    (kps : List NamedKeypoint) :
    (∀ ny, extractNoseY kps = some ny →
      ∀ o, (o ∈ findNearbyObjects objects personBbox (extractNoseY kps) ↔
        o ∈ objects ∧ o.center.2 > ny ∧
        personBbox.x1 - (personBbox.x2 - personBbox.x1) * (3/10) < o.center.1 ∧
        o.center.1 < personBbox.x2 + (personBbox.x2 - personBbox.x1) * (3/10))) ∧
    (extractNoseY kps = none →
      findNearbyObjects objects personBbox (extractNoseY kps) = []) := by
  constructor
  · intro ny hny o
    rw [hny]
    simp only [findNearbyObjects, List.mem_filter, decide_eq_true_eq]
  · intro hn
    rw [hn]
    rfl

/-- Witness for C7: a laptop centered at (50,150), below a visible nose at
y=100, inside the widened person box (40,0)-(60,200), is associated. -/
theorem in_front_of_association_witness :
    DetObject.mk "laptop" (50, 150) ∈
      findNearbyObjects [DetObject.mk "laptop" (50, 150)]
        (BBox.mk 40 0 60 200)
        (extractNoseY [NamedKeypoint.mk "nose" 50 100 (9/10) true]) := by
  have h := (in_front_of_association [DetObject.mk "laptop" (50, 150)]
    (BBox.mk 40 0 60 200) [NamedKeypoint.mk "nose" 50 100 (9/10) true]).1
    100 (by simp [extractNoseY]) (DetObject.mk "laptop" (50, 150))
  refine h.mpr ⟨List.mem_singleton.mpr rfl, ?_, ?_, ?_⟩
  · show (150 : ℚ) > 100
    norm_num
  · show (40 : ℚ) - (60 - 40) * (3/10) < 50
    norm_num
  · show (50 : ℚ) < 60 + (60 - 40) * (3/10)
    norm_num

/-! ## Person association (individual_behavior_service.py, bbox_tracker_service.py) -/

/-- The strict-improvement selection loop shared by
`IndividualBehaviorAnalyzer._match_pose_to_bbox` (lines 279-299) and
`BBoxTrackerAnalyzer._analyze_bbox_region` (lines 304-328): a running best
`(detection, best_iou)` starting from `(None, 0)`, replaced only when
`iou > best_iou`. -/
def bestDetection (iouFn : BBox → BBox → ℚ) (target : BBox)
    (dets : List BBox) : Option BBox × ℚ :=
  dets.foldl (fun acc d =>
    if acc.2 < iouFn target d then (some d, iouFn target d) else acc) (none, 0)

/-- Model of `IndividualBehaviorAnalyzer._match_pose_to_bbox`
(individual_behavior_service.py lines 271-304): accepts the best pose only
when `best_iou > 0.3`. -/
def matchPoseToBbox (faceBbox : BBox) (poses : List BBox) : Option BBox :=
  let r := bestDetection calculateIouNp faceBbox poses
  if r.2 > 3/10 then r.1 else none

/-- The pose-matching step of `BBoxTrackerAnalyzer._analyze_bbox_region`
(bbox_tracker_service.py lines 304-343): not found iff no pose was ever
selected or `best_iou < 0.1`. -/
def analyzeBboxRegionMatch (bbox : BBox) (poses : List BBox) : Option BBox :=
  let r := bestDetection calculateIou bbox poses
  match r.1 with
  | none => none
  | some t => if r.2 < 1/10 then none else some t

lemma bestDetection_foldl_spec (iouFn : BBox → BBox → ℚ) (target : BBox) :
    ∀ (dets : List BBox) (acc : Option BBox × ℚ),
      (dets.foldl (fun acc d =>
          if acc.2 < iouFn target d then (some d, iouFn target d) else acc)
          acc = acc ∧
        ∀ d ∈ dets, iouFn target d ≤ acc.2) ∨
      (∃ d l₁ l₂, dets = l₁ ++ d :: l₂ ∧
        dets.foldl (fun acc d =>
          if acc.2 < iouFn target d then (some d, iouFn target d) else acc)
          acc = (some d, iouFn target d) ∧
        acc.2 < iouFn target d ∧
        (∀ e ∈ l₁, iouFn target e < iouFn target d) ∧
        (∀ e ∈ l₂, iouFn target e ≤ iouFn target d)) := by
  intro dets
  induction dets with
  | nil =>
    intro acc
    left
    exact ⟨rfl, by simp⟩
  | cons d rest ih =>
    intro acc
    simp only [List.foldl_cons]
    by_cases h : acc.2 < iouFn target d
    · rw [if_pos h]
      rcases ih (some d, iouFn target d) with
        ⟨heq, hall⟩ | ⟨e, l₁, l₂, hsplit, heq, hgt, hearlier, hlater⟩
      · right
        exact ⟨d, [], rest, by simp, heq, h, by simp, fun e he => hall e he⟩
      · right
        refine ⟨e, d :: l₁, l₂, by simp [hsplit], heq, lt_trans h hgt, ?_, hlater⟩
        intro f hf
        rcases List.mem_cons.mp hf with rfl | hf'
        · exact hgt
        · exact hearlier f hf'
    · rw [if_neg h]
      rcases ih acc with
        ⟨heq, hall⟩ | ⟨e, l₁, l₂, hsplit, heq, hgt, hearlier, hlater⟩
      · left
        refine ⟨heq, ?_⟩
        intro f hf
        rcases List.mem_cons.mp hf with rfl | hf'
        · exact le_of_not_lt h
        · exact hall f hf'
      · right
        refine ⟨e, d :: l₁, l₂, by simp [hsplit], heq, hgt, ?_, hlater⟩
        intro f hf
        rcases List.mem_cons.mp hf with rfl | hf'
        · exact lt_of_le_of_lt (le_of_not_lt h) hgt
        · exact hearlier f hf'

/-- Counterexample to C6 as stated: with region (0,0,1,10) and a single pose
box (0,9,1,10) the IoU is exactly 0.1 — it does not EXCEED the 0.1 threshold
of the coarse region search — yet the code accepts the match (it only rejects
`best_iou < 0.1`). -/
theorem associator_threshold_counterexample :
    analyzeBboxRegionMatch (BBox.mk 0 0 1 10) [BBox.mk 0 9 1 10] =
      some (BBox.mk 0 9 1 10) ∧
    ¬(calculateIou (BBox.mk 0 0 1 10) (BBox.mk 0 9 1 10) > 1/10) := by
  have hiou : calculateIou (BBox.mk 0 0 1 10) (BBox.mk 0 9 1 10) = 1/10 := by
    simp only [calculateIou, BBox.area]
    norm_num
  constructor
  · simp only [analyzeBboxRegionMatch, bestDetection, List.foldl_cons,
      List.foldl_nil, hiou]
    norm_num
  · rw [hiou]
    norm_num

/-- C6 amended: both associators select the pose of maximum IoU with earlier
ties winning (every detection before the selected one has strictly smaller
IoU, every one after has no greater IoU); the face-to-pose matcher accepts
iff the maximum exceeds 0.3, while the coarse region search accepts iff the
maximum is at least 0.1 (it also accepts at exactly the threshold); when no
detection qualifies, the result is not-found. -/
theorem person_associator_amended :
    (∀ (face : BBox) (poses : List BBox) (d : BBox),
      matchPoseToBbox face poses = some d →
      (∃ l₁ l₂, poses = l₁ ++ d :: l₂ ∧
        (∀ e ∈ l₁, calculateIouNp face e < calculateIouNp face d) ∧
        (∀ e ∈ l₂, calculateIouNp face e ≤ calculateIouNp face d)) ∧
      calculateIouNp face d > 3/10) ∧
    (∀ (face : BBox) (poses : List BBox),
      (∀ e ∈ poses, calculateIouNp face e ≤ 3/10) →
      matchPoseToBbox face poses = none) ∧
    (∀ (region : BBox) (poses : List BBox) (d : BBox),
      analyzeBboxRegionMatch region poses = some d →
      (∃ l₁ l₂, poses = l₁ ++ d :: l₂ ∧
        (∀ e ∈ l₁, calculateIou region e < calculateIou region d) ∧
        (∀ e ∈ l₂, calculateIou region e ≤ calculateIou region d)) ∧
      calculateIou region d ≥ 1/10) ∧
    (∀ (region : BBox) (poses : List BBox),
      (∀ e ∈ poses, calculateIou region e < 1/10) →
      analyzeBboxRegionMatch region poses = none) := by
  refine ⟨?_, ?_, ?_, ?_⟩
  · intro face poses d hmatch
    unfold matchPoseToBbox at hmatch
    unfold bestDetection at hmatch
    rcases bestDetection_foldl_spec calculateIouNp face poses (none, 0) with
      ⟨heq, _⟩ | ⟨e, l₁, l₂, hsplit, heq, _, hearlier, hlater⟩
    · rw [heq] at hmatch
      simp at hmatch
    · rw [heq] at hmatch
      dsimp only at hmatch
      by_cases hth : calculateIouNp face e > 3/10
      · rw [if_pos hth] at hmatch
        simp only [Option.some.injEq] at hmatch
        subst hmatch
        exact ⟨⟨l₁, l₂, hsplit, hearlier, hlater⟩, hth⟩
      · rw [if_neg hth] at hmatch
        exact absurd hmatch (by simp)
  · intro face poses hall
    unfold matchPoseToBbox bestDetection
    rcases bestDetection_foldl_spec calculateIouNp face poses (none, 0) with
      ⟨heq, _⟩ | ⟨e, l₁, l₂, hsplit, heq, _, _, _⟩
    · rw [heq]
      norm_num
    · rw [heq]
      dsimp only
      have he : e ∈ poses := by rw [hsplit]; simp
      rw [if_neg (not_lt.mpr (hall e he))]
  · intro region poses d hmatch
    unfold analyzeBboxRegionMatch at hmatch
    unfold bestDetection at hmatch
    rcases bestDetection_foldl_spec calculateIou region poses (none, 0) with
      ⟨heq, _⟩ | ⟨e, l₁, l₂, hsplit, heq, _, hearlier, hlater⟩
    · rw [heq] at hmatch
      exact absurd hmatch (by simp)
    · rw [heq] at hmatch
      dsimp only at hmatch
      by_cases hth : calculateIou region e < 1/10
      · rw [if_pos hth] at hmatch
        exact absurd hmatch (by simp)
      · rw [if_neg hth] at hmatch
        simp only [Option.some.injEq] at hmatch
        subst hmatch
        exact ⟨⟨l₁, l₂, hsplit, hearlier, hlater⟩, le_of_not_lt hth⟩
  · intro region poses hall
    unfold analyzeBboxRegionMatch bestDetection
    rcases bestDetection_foldl_spec calculateIou region poses (none, 0) with
      ⟨heq, _⟩ | ⟨e, l₁, l₂, hsplit, heq, _, _, _⟩
    · rw [heq]
    · rw [heq]
      dsimp only
      have he : e ∈ poses := by rw [hsplit]; simp
      rw [if_pos (hall e he)]

/-- Witness for the amended C6: a face box matched against the identical pose
box (IoU 1) is accepted, and the theorem yields its threshold bound. -/
theorem person_associator_amended_witness :
    matchPoseToBbox (BBox.mk 0 0 10 10) [BBox.mk 0 0 10 10] =
      some (BBox.mk 0 0 10 10) ∧
    calculateIouNp (BBox.mk 0 0 10 10) (BBox.mk 0 0 10 10) > 3/10 := by
  have hm : matchPoseToBbox (BBox.mk 0 0 10 10) [BBox.mk 0 0 10 10] =
      some (BBox.mk 0 0 10 10) := by
    have hiou : calculateIouNp (BBox.mk 0 0 10 10) (BBox.mk 0 0 10 10) = 1 := by
      simp only [calculateIouNp, BBox.area]
      norm_num
    simp only [matchPoseToBbox, bestDetection, List.foldl_cons, List.foldl_nil,
      hiou]
    norm_num
  exact ⟨hm, (person_associator_amended.1 (BBox.mk 0 0 10 10)
    [BBox.mk 0 0 10 10] (BBox.mk 0 0 10 10) hm).2⟩

/-! ## Tracker cascade setup (bbox_tracker_service.py, analyze_with_bbox) -/

/-- Outcome of a tracker's `init(frame, box)` call. -/
inductive TrackerInitOutcome where
  | success
  | returnsFalse
  | raises
deriving DecidableEq, Repr

/-- One entry of the ordered `tracker_methods` list (lines 102-110): whether
the factory constructs (an AttributeError/cv2.error is caught and the next
factory is tried), whether the method name contains `MIL`, and how `init`
behaves when this tracker is the one constructed. -/
structure TrackerBackend where
  constructs : Bool
  nameHasMIL : Bool
  initOutcome : TrackerInitOutcome
deriving DecidableEq, Repr

/-- Tracking mode after a successful setup. -/
inductive CascadeStart where
  | tracking
  | trackingMilFallback
  | fallbackSearch
deriving DecidableEq, Repr

/-- The construction loop (lines 112-122): first factory that constructs. -/
def createTracker (backends : List TrackerBackend) : Option TrackerBackend :=
  backends.find? (fun t => t.constructs)

/-- The clamping and minimum-size check of `analyze_with_bbox` (lines
124-153): a box out of the image bounds is clamped into the image, then any
box under 10x10 raises RuntimeError. -/
def clampAndCheckBbox (imgWidth imgHeight x0 y0 w0 h0 : ℤ) :
    Except String (ℤ × ℤ × ℤ × ℤ) :=
  let clamped :=
    if x0 < 0 ∨ y0 < 0 ∨ x0 + w0 > imgWidth ∨ y0 + h0 > imgHeight then
      let x := max 0 (min x0 (imgWidth - 1))
      let y := max 0 (min y0 (imgHeight - 1))
      (x, y, min w0 (imgWidth - x), min h0 (imgHeight - y))
    else (x0, y0, w0, h0)
  if clamped.2.2.1 < 10 ∨ clamped.2.2.2 < 10 then
    .error "bbox too small to track"
  else .ok clamped

/-- Tracker initialization (lines 170-200): `init` returning False retries
once with `cv2.TrackerMIL_create()` unless the tracker already is MIL, and
raises RuntimeError when that also fails; `init` raising an exception selects
the no-tracker region-search fallback (`success = None`). -/
def initTracker (t : TrackerBackend) (milFallback : TrackerBackend) :
    Except String CascadeStart :=
  match t.initOutcome with
  | .success => .ok .tracking
  | .raises => .ok .fallbackSearch
  | .returnsFalse =>
    let milSuccess :=
      if t.nameHasMIL then false
      else if milFallback.constructs then
        match milFallback.initOutcome with
        | .success => true
        | _ => false
      else false
    if milSuccess then .ok .trackingMilFallback
    else .error "tracker initialization failed"

/-- The setup phase of `BBoxTrackerAnalyzer.analyze_with_bbox` (lines
97-200): construct a tracker (RuntimeError when no factory constructs), clamp
and size-check the initial box, then initialize. -/
def analyzeWithBboxSetup (backends : List TrackerBackend)
    (milFallback : TrackerBackend) (imgWidth imgHeight x0 y0 w0 h0 : ℤ) :
    Except String (CascadeStart × ℤ × ℤ × ℤ × ℤ) :=
  match createTracker backends with
  | none => .error "no OpenCV tracker could be created"
  | some t =>
    match clampAndCheckBbox imgWidth imgHeight x0 y0 w0 h0 with
    | .error e => .error e
    | .ok b =>
      match initTracker t milFallback with
      | .error e => .error e
      | .ok st => .ok (st, b)

/-- The per-frame fallback region search (lines 241-265): every frame
searches the initial static box expanded by a 50px margin (clamped to the
image) and is counted as tracked or lost. -/
def fallbackSearchLoop (imgWidth imgHeight x0 y0 w0 h0 : ℤ)
    (frames : List (List BBox)) : Nat × Nat :=
  let searchBbox : BBox :=
    { x1 := ((max 0 (x0 - 50) : ℤ) : ℚ), y1 := ((max 0 (y0 - 50) : ℤ) : ℚ),
      x2 := ((min imgWidth (x0 + w0 + 50) : ℤ) : ℚ),
      y2 := ((min imgHeight (y0 + h0 + 50) : ℤ) : ℚ) }
  frames.foldl (fun acc dets =>
    if (analyzeBboxRegionMatch searchBbox dets).isSome then (acc.1 + 1, acc.2)
    else (acc.1, acc.2 + 1)) (0, 0)

/-- The seven factories of `tracker_methods`, all failing to construct (the
fifth is TrackerMIL). -/
def allFailBackends : List TrackerBackend :=
  [{ constructs := false, nameHasMIL := false, initOutcome := .success },
   { constructs := false, nameHasMIL := false, initOutcome := .success },
   { constructs := false, nameHasMIL := false, initOutcome := .success },
   { constructs := false, nameHasMIL := false, initOutcome := .success },
   { constructs := false, nameHasMIL := true, initOutcome := .success },
   { constructs := false, nameHasMIL := false, initOutcome := .success },
   { constructs := false, nameHasMIL := false, initOutcome := .success }]

/-- Counterexample to C1 as stated: when every factory in the ordered list
fails to construct, `analyze_with_bbox` raises RuntimeError — the analysis
aborts with an exception instead of entering the fallback region search. -/
theorem tracker_cascade_counterexample :
    analyzeWithBboxSetup allFailBackends
      { constructs := true, nameHasMIL := true, initOutcome := .success }
      640 480 10 10 50 50 =
    .error "no OpenCV tracker could be created" := by
  rfl

lemma fallbackSearchLoop_foldl (searchBbox : BBox) :
    ∀ (frames : List (List BBox)) (acc : Nat × Nat),
      (frames.foldl (fun acc dets =>
        if (analyzeBboxRegionMatch searchBbox dets).isSome then (acc.1 + 1, acc.2)
        else (acc.1, acc.2 + 1)) acc).1 +
      (frames.foldl (fun acc dets =>
        if (analyzeBboxRegionMatch searchBbox dets).isSome then (acc.1 + 1, acc.2)
        else (acc.1, acc.2 + 1)) acc).2 = acc.1 + acc.2 + frames.length := by
  intro frames
  induction frames with
  | nil => intro acc; simp
  | cons f rest ih =>
    intro acc
    simp only [List.foldl_cons, List.length_cons]
    by_cases h : (analyzeBboxRegionMatch searchBbox f).isSome
    · rw [if_pos h, ih]
      simp only []
      omega
    · rw [if_neg h, ih]
      simp only []
      omega

/-- C1 amended: when every tracker factory fails to construct,
`analyze_with_bbox` raises RuntimeError (it does not enter fallback_search);
the fallback region search is entered exactly when a factory constructs but
its `init` call raises an exception, and in that mode the per-frame loop
classifies every frame as tracked or lost (the sequence analysis completes). -/
theorem tracker_cascade_amended :
    (∀ (backends : List TrackerBackend) (milFallback : TrackerBackend)
       (imgW imgH x0 y0 w0 h0 : ℤ),
      (∀ t ∈ backends, t.constructs = false) →
      analyzeWithBboxSetup backends milFallback imgW imgH x0 y0 w0 h0 =
        .error "no OpenCV tracker could be created") ∧
    (∀ (backends : List TrackerBackend) (milFallback : TrackerBackend)
       (imgW imgH x0 y0 w0 h0 : ℤ) (t : TrackerBackend) (b : ℤ × ℤ × ℤ × ℤ),
      createTracker backends = some t →
      t.initOutcome = .raises →
      clampAndCheckBbox imgW imgH x0 y0 w0 h0 = .ok b →
      analyzeWithBboxSetup backends milFallback imgW imgH x0 y0 w0 h0 =
        .ok (.fallbackSearch, b)) ∧
    (∀ (imgW imgH x0 y0 w0 h0 : ℤ) (frames : List (List BBox)),
      (fallbackSearchLoop imgW imgH x0 y0 w0 h0 frames).1 +
        (fallbackSearchLoop imgW imgH x0 y0 w0 h0 frames).2 = frames.length) := by
  refine ⟨?_, ?_, ?_⟩
  · intro backends milFallback imgW imgH x0 y0 w0 h0 hall
    unfold analyzeWithBboxSetup
    have hnone : createTracker backends = none := by
      unfold createTracker
      rw [List.find?_eq_none]
      intro t ht
      rw [hall t ht]
      exact Bool.false_ne_true
    rw [hnone]
  · intro backends milFallback imgW imgH x0 y0 w0 h0 t b hct hinit hclamp
    unfold analyzeWithBboxSetup initTracker
    rw [hct, hclamp]
    dsimp only
    rw [hinit]
  · intro imgW imgH x0 y0 w0 h0 frames
    unfold fallbackSearchLoop
    rw [fallbackSearchLoop_foldl]
    simp

/-- Witness for the amended C1: a single backend that constructs but whose
`init` raises leads to the fallback region search, and the fallback loop on
two frames classifies both. -/
theorem tracker_cascade_amended_witness :
    analyzeWithBboxSetup
      [{ constructs := true, nameHasMIL := false, initOutcome := .raises }]
      { constructs := true, nameHasMIL := true, initOutcome := .success }
      640 480 10 10 50 50 =
      .ok (.fallbackSearch, (10, 10, 50, 50)) ∧
    (fallbackSearchLoop 640 480 10 10 50 50 [[], []]).1 +
      (fallbackSearchLoop 640 480 10 10 50 50 [[], []]).2 = 2 := by
  constructor
  · exact tracker_cascade_amended.2.1
      [{ constructs := true, nameHasMIL := false, initOutcome := .raises }]
      { constructs := true, nameHasMIL := true, initOutcome := .success }
      640 480 10 10 50 50
      { constructs := true, nameHasMIL := false, initOutcome := .raises }
      (10, 10, 50, 50) rfl rfl (by rfl)
  · exact tracker_cascade_amended.2.2 640 480 10 10 50 50 [[], []]

/-- Counterexample to C9 as stated: with a 100x100 first frame and the
initial box (x=200, y=200, w=50, h=50) entirely outside the frame, the box is
clamped to (99, 99, 1, 1), which is under 10x10 — and `analyze_with_bbox`
raises RuntimeError (the setup is an error), it does not report zero
trackable frames. -/
theorem clamp_min_size_counterexample :
    analyzeWithBboxSetup
      [{ constructs := true, nameHasMIL := false, initOutcome := .success }]
      { constructs := true, nameHasMIL := true, initOutcome := .success }
      100 100 200 200 50 50 =
    .error "bbox too small to track" := by
  rfl

/-- C9 amended: an out-of-bounds initial box is clamped into the image first
(the clamped coordinates lie inside the image and the clamped box does not
extend past it); if the clamped box is smaller than 10x10,
`analyze_with_bbox` raises RuntimeError — the exception propagates to the
caller (unless construction already failed with its own RuntimeError) —
rather than reporting zero trackable frames. -/
theorem clamp_min_size_amended :
    (∀ (imgW imgH x0 y0 w0 h0 : ℤ), 1 ≤ imgW → 1 ≤ imgH →
      (x0 < 0 ∨ y0 < 0 ∨ x0 + w0 > imgW ∨ y0 + h0 > imgH) →
      (0 ≤ max 0 (min x0 (imgW - 1)) ∧ max 0 (min x0 (imgW - 1)) < imgW ∧
       0 ≤ max 0 (min y0 (imgH - 1)) ∧ max 0 (min y0 (imgH - 1)) < imgH ∧
       max 0 (min x0 (imgW - 1)) + min w0 (imgW - max 0 (min x0 (imgW - 1))) ≤ imgW ∧
       max 0 (min y0 (imgH - 1)) + min h0 (imgH - max 0 (min y0 (imgH - 1))) ≤ imgH) ∧
      ((min w0 (imgW - max 0 (min x0 (imgW - 1))) < 10 ∨
        min h0 (imgH - max 0 (min y0 (imgH - 1))) < 10) →
        clampAndCheckBbox imgW imgH x0 y0 w0 h0 = .error "bbox too small to track") ∧
      (¬(min w0 (imgW - max 0 (min x0 (imgW - 1))) < 10 ∨
         min h0 (imgH - max 0 (min y0 (imgH - 1))) < 10) →
        clampAndCheckBbox imgW imgH x0 y0 w0 h0 =
          .ok (max 0 (min x0 (imgW - 1)), max 0 (min y0 (imgH - 1)),
               min w0 (imgW - max 0 (min x0 (imgW - 1))),
               min h0 (imgH - max 0 (min y0 (imgH - 1)))))) ∧
    (∀ (backends : List TrackerBackend) (milFallback : TrackerBackend)
       (imgW imgH x0 y0 w0 h0 : ℤ) (msg : String),
      clampAndCheckBbox imgW imgH x0 y0 w0 h0 = .error msg →
      analyzeWithBboxSetup backends milFallback imgW imgH x0 y0 w0 h0 = .error msg ∨
      analyzeWithBboxSetup backends milFallback imgW imgH x0 y0 w0 h0 =
        .error "no OpenCV tracker could be created") := by
  constructor
  · intro imgW imgH x0 y0 w0 h0 hw hh hout
    refine ⟨⟨le_max_left _ _, ?_, le_max_left _ _, ?_, ?_, ?_⟩, ?_, ?_⟩
    · have h1 : min x0 (imgW - 1) ≤ imgW - 1 := min_le_right _ _
      have h2 : max 0 (min x0 (imgW - 1)) ≤ imgW - 1 := max_le (by linarith) h1
      linarith
    · have h1 : min y0 (imgH - 1) ≤ imgH - 1 := min_le_right _ _
      have h2 : max 0 (min y0 (imgH - 1)) ≤ imgH - 1 := max_le (by linarith) h1
      linarith
    · have := min_le_right w0 (imgW - max 0 (min x0 (imgW - 1)))
      linarith
    · have := min_le_right h0 (imgH - max 0 (min y0 (imgH - 1)))
      linarith
    · intro hsmall
      unfold clampAndCheckBbox
      rw [if_pos hout]
      dsimp only
      rw [if_pos hsmall]
    · intro hbig
      unfold clampAndCheckBbox
      rw [if_pos hout]
      dsimp only
      rw [if_neg hbig]
  · intro backends milFallback imgW imgH x0 y0 w0 h0 msg hclamp
    unfold analyzeWithBboxSetup
    cases hct : createTracker backends with
    | none => right; rfl
    | some t =>
      left
      rw [hclamp]

/-- Witness for the amended C9 at the concrete out-of-bounds box
(200,200,50,50) against a 100x100 frame. -/
theorem clamp_min_size_amended_witness :
    clampAndCheckBbox 100 100 200 200 50 50 =
      .error "bbox too small to track" ∧
    (analyzeWithBboxSetup
        [{ constructs := true, nameHasMIL := false, initOutcome := .success }]
        { constructs := true, nameHasMIL := true, initOutcome := .success }
        100 100 200 200 50 50 = .error "bbox too small to track" ∨
     analyzeWithBboxSetup
        [{ constructs := true, nameHasMIL := false, initOutcome := .success }]
        { constructs := true, nameHasMIL := true, initOutcome := .success }
        100 100 200 200 50 50 = .error "no OpenCV tracker could be created") := by
  have h1 := (clamp_min_size_amended.1 100 100 200 200 50 50
    (by decide) (by decide) (by decide)).2.1 (by decide)
  exact ⟨h1, clamp_min_size_amended.2
    [{ constructs := true, nameHasMIL := false, initOutcome := .success }]
    { constructs := true, nameHasMIL := true, initOutcome := .success }
    100 100 200 200 50 50 "bbox too small to track" h1⟩

/-! ## Batched versus per-frame sampling (pose3_video_service.py) -/

/-- Python `int()` applied to a float: truncation toward zero (numpy
`astype(int)` behaves the same way). -/
def pyInt (q : ℚ) : ℤ := if 0 ≤ q then ⌊q⌋ else -⌊-q⌋

/-- The 17 COCO keypoint names (pose2_detection_service.py lines 49-67). -/
def keypointNames : List String :=
  ["nose", "left_eye", "right_eye", "left_ear", "right_ear",
   "left_shoulder", "right_shoulder", "left_elbow", "right_elbow",
   "left_wrist", "right_wrist", "left_hip", "right_hip",
   "left_knee", "right_knee", "left_ankle", "right_ankle"]

/-- A raw bounding box as returned by the neural detector (floats). -/
structure RawBox where
  x1 : ℚ
  y1 : ℚ
  x2 : ℚ
  y2 : ℚ
deriving DecidableEq, Repr

/-- One raw object detection: COCO class id and raw box. -/
structure RawObject where
  classId : ℕ
  box : RawBox
deriving DecidableEq, Repr

/-- One raw person detection: raw box and the 17 keypoint triples
`(x, y, conf)`. -/
structure RawPerson where
  box : RawBox
  kpts : List (ℚ × ℚ × ℚ)
deriving DecidableEq, Repr

/-- Keypoint parsing shared verbatim by `detect_poses`
(pose2_detection_service.py lines 143-154) and `_parse_pose_result`
(pose3_video_service.py lines 584-593): names by COCO index, y kept as float,
`visible = conf > 0.5`. -/
def parseKeypoints (kpts : List (ℚ × ℚ × ℚ)) : List NamedKeypoint :=
  kpts.enum.map (fun p =>
    { name := keypointNames.getD p.1 "",
      x := p.2.1, y := p.2.2.1, confidence := p.2.2.2,
      visible := decide (p.2.2.2 > (1/2 : ℚ)) })

/-- The keypoint scan of `_analyze_head_pose_ear_eye`
(pose2_detection_service.py lines 214-222): the last visible keypoint with
the given name. -/
def findVisibleKeypoint (kps : List NamedKeypoint) (n : String) :
    Option (ℚ × ℚ) :=
  kps.foldl (fun acc kp =>
    if kp.name = n ∧ kp.visible then some (kp.x, kp.y) else acc) none

/-- Model of `PoseDetectionService._analyze_head_pose_ear_eye`
(pose2_detection_service.py lines 187-292): signed offset of the visible ear
from the eye line, with a vertical-camera fallback when the two eyes are
horizontally coincident (within 1e-6). -/
def analyzeHeadPoseEarEye (kps : List NamedKeypoint)
    (lookingUpThreshold lookingDownThreshold : ℚ) : HeadPose :=
  match findVisibleKeypoint kps "left_eye", findVisibleKeypoint kps "right_eye",
        (findVisibleKeypoint kps "left_ear").orElse
          (fun _ => findVisibleKeypoint kps "right_ear") with
  | some le, some re, some ear =>
    if |re.1 - le.1| < 1/1000000 then
      let eyeY := (le.2 + re.2) / 2
      let verticalDiff := ear.2 - eyeY
      if verticalDiff > 15 then .lookingUp
      else if verticalDiff < -5 then .lookingDown
      else .neutral
    else
      let k := (re.2 - le.2) / (re.1 - le.1)
      let b := le.2 - k * le.1
      let lineY := k * ear.1 + b
      let relativePosition := lineY - ear.2
      if relativePosition < lookingUpThreshold then .lookingUp
      else if relativePosition > lookingDownThreshold then .lookingDown
      else .neutral
  | _, _, _ => .unknown

/-- Person parsing shared verbatim by `detect_poses`
(pose2_detection_service.py lines 127-176) and `_parse_pose_result`
(pose3_video_service.py lines 573-614) when boxes and keypoints are both
present: int-truncated bbox, parsed keypoints, precomputed ear-eye head
pose. -/
def parsePerson (lookingUpThreshold lookingDownThreshold : ℚ)
    (rp : RawPerson) : Person :=
  let kps := parseKeypoints rp.kpts
  { bbox := { x1 := ((pyInt rp.box.x1 : ℤ) : ℚ), y1 := ((pyInt rp.box.y1 : ℤ) : ℚ),
              x2 := ((pyInt rp.box.x2 : ℤ) : ℚ), y2 := ((pyInt rp.box.y2 : ℤ) : ℚ) },
    keypoints := kps,
    headPose := analyzeHeadPoseEarEye kps lookingUpThreshold lookingDownThreshold }

/-- Model of `target_classes` lookup with default `unknown`
(pose2_detection_service.py lines 92-96). -/
def targetClassName (classId : ℕ) : String :=
  if classId = 63 then "laptop"
  else if classId = 67 then "cell phone"
  else if classId = 73 then "book"
  else "unknown"

/-- Object parsing of `detect_objects` (pose2_detection_service.py lines
477-503): the model is invoked with `classes=[63,67,73]` so the raw list is
already class-filtered, and the center is `int((x1+x2)/2), int((y1+y2)/2)` —
truncated to whole pixels. -/
def parseObjectsDetect (raws : List RawObject) : List DetObject :=
  raws.map (fun r =>
    { className := targetClassName r.classId,
      center := (((pyInt ((r.box.x1 + r.box.x2) / 2) : ℤ) : ℚ),
                 ((pyInt ((r.box.y1 + r.box.y2) / 2) : ℤ) : ℚ)) })

/-- Object parsing of `_parse_object_result` (pose3_video_service.py lines
616-649): filters class ids 63/67/73 itself and computes the center as
`(int(x1) + int(x2)) / 2` — the average of the truncated coordinates, which
keeps half-pixel fractions. -/
def parseObjectsBatch (raws : List RawObject) : List DetObject :=
  (raws.filter (fun r =>
      r.classId = 63 ∨ r.classId = 67 ∨ r.classId = 73)).map (fun r =>
    { className := targetClassName r.classId,
      center := ((((pyInt r.box.x1 : ℤ) : ℚ) + ((pyInt r.box.x2 : ℤ) : ℚ)) / 2,
                 (((pyInt r.box.y1 : ℤ) : ℚ) + ((pyInt r.box.y2 : ℤ) : ℚ)) / 2) })

/-- One sampled frame of the per-frame mode `_analyze_frame_by_frame`
(pose3_video_service.py lines 684-710), which calls
`analyze_behavior_frame` → `detect_poses` + `detect_objects` +
`_analyze_behaviors` and counts the first detected person's behavior. -/
def classifyFramePerFrame (lookingUpThreshold lookingDownThreshold : ℚ)
    (rawPersons : List RawPerson) (rawObjects : List RawObject) :
    Option CompositeBehavior :=
  (analyzeBehaviors
    (rawPersons.map (parsePerson lookingUpThreshold lookingDownThreshold))
    (parseObjectsDetect rawObjects)).head?

/-- One frame of the batched mode `_process_batch` (pose3_video_service.py
lines 526-571): `_parse_pose_result` + `_parse_object_result` +
`_analyze_behaviors`, counting the first detected person's behavior. -/
def classifyFrameBatch (lookingUpThreshold lookingDownThreshold : ℚ)
    (rawPersons : List RawPerson) (rawObjects : List RawObject) :
    Option CompositeBehavior :=
  (analyzeBehaviors
    (rawPersons.map (parsePerson lookingUpThreshold lookingDownThreshold))
    (parseObjectsBatch rawObjects)).head?

/-- A raw person detection for the divergence frame: box (0,0,4,300), nose at
(2, 100.25) with confidence 0.9, eyes at (0,10) and (4,10), left ear at
(2,5), all other keypoints at confidence 0. -/
def rawPersonC8 : RawPerson :=
  { box := { x1 := 0, y1 := 0, x2 := 4, y2 := 300 },
    kpts := [(2, 401/4, 9/10), (0, 10, 9/10), (4, 10, 9/10), (2, 5, 9/10),
             (0, 0, 0), (0, 0, 0), (0, 0, 0), (0, 0, 0), (0, 0, 0), (0, 0, 0),
             (0, 0, 0), (0, 0, 0), (0, 0, 0), (0, 0, 0), (0, 0, 0), (0, 0, 0),
             (0, 0, 0)] }

/-- A raw laptop detection (class 63) with box (0,100,3,101): its exact
center is (1.5, 100.5), which truncates to (1, 100) in the per-frame path. -/
def rawLaptopC8 : RawObject :=
  { classId := 63, box := { x1 := 0, y1 := 100, x2 := 3, y2 := 101 } }

/-- C8 divergence: on the same raw detector outputs (one looking-down person,
one laptop) with the same thresholds, the per-frame path truncates the laptop
center to (1,100) — not below the nose at y=100.25, so the laptop is not
associated and the frame counts as reading_writing — while the batched path
keeps the center (1.5, 100.5) and counts the same frame as using_computer. -/
theorem batch_vs_frame_divergence :
    classifyFramePerFrame (-2) 0 [rawPersonC8] [rawLaptopC8] =
      some .readingWriting ∧
    classifyFrameBatch (-2) 0 [rawPersonC8] [rawLaptopC8] =
      some .usingComputer := by
  have hkps : parseKeypoints rawPersonC8.kpts =
      [⟨"nose", 2, 401/4, 9/10, true⟩, ⟨"left_eye", 0, 10, 9/10, true⟩,
       ⟨"right_eye", 4, 10, 9/10, true⟩, ⟨"left_ear", 2, 5, 9/10, true⟩,
       ⟨"right_ear", 0, 0, 0, false⟩, ⟨"left_shoulder", 0, 0, 0, false⟩,
       ⟨"right_shoulder", 0, 0, 0, false⟩, ⟨"left_elbow", 0, 0, 0, false⟩,
       ⟨"right_elbow", 0, 0, 0, false⟩, ⟨"left_wrist", 0, 0, 0, false⟩,
       ⟨"right_wrist", 0, 0, 0, false⟩, ⟨"left_hip", 0, 0, 0, false⟩,
       ⟨"right_hip", 0, 0, 0, false⟩, ⟨"left_knee", 0, 0, 0, false⟩,
       ⟨"right_knee", 0, 0, 0, false⟩, ⟨"left_ankle", 0, 0, 0, false⟩,
       ⟨"right_ankle", 0, 0, 0, false⟩] := by
    simp only [parseKeypoints, rawPersonC8, keypointNames, List.enum]
    norm_num
  have hhp : analyzeHeadPoseEarEye (parseKeypoints rawPersonC8.kpts) (-2) 0 =
      .lookingDown := by
    rw [hkps]
    simp only [analyzeHeadPoseEarEye, findVisibleKeypoint, List.foldl]
    simp only [String.reduceEq, reduceIte]
    norm_num
  have hnose : extractNoseY (parseKeypoints rawPersonC8.kpts) = some (401/4) := by
    rw [hkps]
    simp [extractNoseY]
  have hobjD : parseObjectsDetect [rawLaptopC8] =
      [{ className := "laptop", center := (1, 100) }] := by
    norm_num [parseObjectsDetect, rawLaptopC8, targetClassName, pyInt]
  have hobjB : parseObjectsBatch [rawLaptopC8] =
      [{ className := "laptop", center := (3/2, 201/2) }] := by
    norm_num [parseObjectsBatch, rawLaptopC8, targetClassName, pyInt]
  constructor
  · simp only [classifyFramePerFrame, analyzeBehaviors, List.map, List.head?,
      analyzeBehaviorSingle, parsePerson, hhp, hnose, hobjD, findNearbyObjects]
    norm_num [rawPersonC8, pyInt, reduceCtorEq, List.filter]
    exact fun h => nomatch h
  · simp only [classifyFrameBatch, analyzeBehaviors, List.map, List.head?,
      analyzeBehaviorSingle, parsePerson, hhp, hnose, hobjB, findNearbyObjects]
    norm_num [rawPersonC8, pyInt, reduceCtorEq, List.filter]
    exact fun h => nomatch h
